import Mathlib

/-!
Verification of the altair-plot sphinx extension
(doc/sphinxext/altair_ext/altairplot.py).

The file shallowly embeds the three components of the extension:
the snippet executor (exec_then_eval, lines 37-45), the directive
processor (AltairPlotDirective.run, lines 61-118) and the render
dispatchers (html_visit_altair_plot, lines 121-139, and
generic_visit_altair_plot, lines 142-147), together with the
per-build serial-number allocation (env.new_serialno, line 89).

Python-level behaviour that the claims depend on is modelled
explicitly: attribute access on ast statement nodes (the .value
field, present on expression and assignment statements, absent on
pass or import statements), list.pop on an empty list (IndexError),
reads of names that were never bound (NameError for the module-level
name specjson on line 79, UnboundLocalError for the local
source_literal on line 98 when hide-code is set).
-/

namespace Altairplot

/-- JSON-like value trees: the Specification returned by chart.to_dict
and serialized by json.dumps. The system treats it as an opaque
serializable structure. -/
inductive JsonVal where
  | null
  | bool (b : Bool)
  | num (n : Int)
  | str (s : String)
  | arr (elems : List JsonVal)
  | obj (fields : List (String × JsonVal))

/-- The Python exception classes that the embedded fragment can raise.
parseError stands for SyntaxError raised by ast.parse; the executor
itself never raises it once the block is parsed. -/
inductive PyErr where
  | parseError
  | indexError
  | attributeError
  | nameError
  | unboundLocalError
  deriving DecidableEq

/-- Python runtime values relevant to the directive: the final value of
the code block either is a chart object exposing to_dict or it is some
other object without that attribute. -/
inductive PyVal where
  | int (n : Int)
  | str (s : String)
  | module (m : String)
  | chart (spec : JsonVal)

/-- Expressions of the embedded Python fragment. mkChart models a call
into the charting library producing a chart object with the given
specification. -/
inductive PyExpr where
  | lit (v : PyVal)
  | name (x : String)
  | mkChart (spec : JsonVal)

/-- The namespace pair of exec_then_eval, merged into one association
list: exec with separate empty globals and locals dicts sends every
binding to locals, and both the statements and the final expression
resolve names through the same lookup chain. -/
abbrev Env := List (String × PyVal)

/-- Name resolution: an unbound name raises NameError. -/
def lookupName (env : Env) (x : String) : Except PyErr PyVal :=
  match env.lookup x with
  | some v => .ok v
  | none => .error .nameError

/-- Expression evaluation. -/
def evalExpr (env : Env) : PyExpr → Except PyErr PyVal
  | .lit v => .ok v
  | .name x => lookupName env x
  | .mkChart s => .ok (.chart s)

/-- Statements of the embedded Python fragment, mirroring the ast node
kinds that matter to exec_then_eval: expression statements and
assignments carry a value field, pass and import do not. -/
inductive PyStmt where
  | exprStmt (e : PyExpr)
  | assign (x : String) (e : PyExpr)
  | passStmt
  | importStmt (m : String)

/-- Access to the .value attribute of an ast statement node, as
performed on line 40. ast.Expr and ast.Assign have it (for an
assignment it is the right-hand side); ast.Pass and ast.Import do not,
so the access raises AttributeError there. -/
def stmtValue : PyStmt → Option PyExpr
  | .exprStmt e => some e
  | .assign _ e => some e
  | .passStmt => none
  | .importStmt _ => none

/-- Execution of one statement (the exec on line 44 runs these in
order). -/
def execStmt (env : Env) : PyStmt → Except PyErr Env
  | .exprStmt e =>
    match evalExpr env e with
    | .error err => .error err
    | .ok _ => .ok env
  | .assign x e =>
    match evalExpr env e with
    | .error err => .error err
    | .ok v => .ok ((x, v) :: env)
  | .passStmt => .ok env
  | .importStmt m => .ok ((m, .module m) :: env)

/-- Execution of a statement list, threading the namespace. -/
def execStmts (env : Env) : List PyStmt → Except PyErr Env
  | [] => .ok env
  | s :: rest =>
    match execStmt env s with
    | .error err => .error err
    | .ok env2 => execStmts env2 rest

/-- Lines 37-45 of altairplot.py, applied to an already parsed block.
block.body.pop() removes and returns the final statement and raises
IndexError on an empty body; .value reads the value field (see
stmtValue); then the remaining statements are executed and the final
expression is evaluated in the resulting namespace. -/
def exec_then_eval (block : List PyStmt) : Except PyErr PyVal :=
  match block.getLast? with
  | none => .error .indexError
  | some lastStmt =>
    match stmtValue lastStmt with
    | none => .error .attributeError
    | some lastExpr =>
      match execStmts [] block.dropLast with
      | .error err => .error err
      | .ok env => evalExpr env lastExpr

/-- The to_dict call on line 71: chart objects return their
specification, any other value lacks the attribute and raises
AttributeError. -/
def to_dict : PyVal → Except PyErr JsonVal
  | .chart s => .ok s
  | _ => .error .attributeError

/-- Decimal rendering of one digit, as in str formatting: the character
with code 48 + d. -/
def digitChar (d : Nat) : Char :=
  Char.ofNat (48 + d)

/-- Fuel-driven decimal rendering worker; the fuel is always chosen
large enough that it never runs out on the argument. -/
def natCharsAux : Nat → Nat → List Char
  | 0, _ => []
  | fuel + 1, n =>
    if n < 10 then [digitChar n]
    else natCharsAux fuel (n / 10) ++ [digitChar (n % 10)]

/-- Decimal digit list of a natural number, most significant first. -/
def natChars (n : Nat) : List Char :=
  natCharsAux (n + 1) n

/-- Decimal rendering of a natural number, modelling the str.format
conversion of the serial number on lines 90-91. -/
def natStr (n : Nat) : String :=
  String.mk (natChars n)

/-- Decimal reading, used to invert natChars. -/
def charsToNat (l : List Char) : Nat :=
  l.foldl (fun acc c => acc * 10 + (c.toNat - 48)) 0

/-- Line 90: the target identifier derived from the transformed
basename and the serial number. -/
def mkTargetId (base : String) (serialno : Nat) : String :=
  base ++ "-altair-source-" ++ natStr serialno

/-- Line 91: the div identifier derived from the transformed basename
and the serial number. -/
def mkDivId (base : String) (serialno : Nat) : String :=
  base ++ "-altair-plot-" ++ natStr serialno

/-- os.path.basename on a POSIX path: everything after the last
slash. -/
def basename (p : String) : String :=
  String.mk (p.data.foldl (fun acc c => if c = '/' then [] else acc ++ [c]) [])

/-- Line 86: rst_filename.replace with a dot pattern, replacing every
dot by a dash. -/
def replaceDots (s : String) : String :=
  String.mk (s.data.map fun c => if c = '.' then '-' else c)

/-- Line 69: the join of the content lines with newline separators. -/
def joinLines : List String → String
  | [] => ""
  | [l] => l
  | l :: rest => l ++ "\n" ++ joinLines rest

/-- The recognized directive options of AltairPlotDirective
(lines 56-59); the three flags record presence and alt carries the
optional alt text. -/
structure Options where
  show_json : Bool
  hide_code : Bool
  code_below : Bool
  alt : Option String

/-- A docutils literal_block node carrying a text body and a language
attribute. -/
structure LiteralBlock where
  text : String
  language : String

/-- The altair_plot intermediate node assembled on lines 95-105. -/
structure PlotNode where
  target_id : String
  div_id : String
  source : LiteralBlock
  relpath : String
  rst_source : String
  rst_lineno : Nat
  spec : JsonVal
  alt : Option String

/-- The docutils nodes that run can emit. -/
inductive Node where
  | target (ids : List String)
  | literal (b : LiteralBlock)
  | plot (p : PlotNode)

/-- Coarse classification of emitted nodes, for stating ordering
properties. -/
inductive NodeKind where
  | target
  | literal
  | plot
  deriving DecidableEq

/-- The kind of a node. -/
def Node.kind : Node → NodeKind
  | .target _ => .target
  | .literal _ => .literal
  | .plot _ => .plot

/-- The plot nodes of an emitted sequence, in order. -/
def plotNodes (ns : List Node) : List PlotNode :=
  ns.filterMap fun n => match n with
    | .plot p => some p
    | _ => none

/-- AltairPlotDirective.run, lines 61-118. The parsed content block is
a parameter (ast.parse is performed inside exec_then_eval by the host
interpreter); rst_source is the source document path, relpath the
precomputed os.path.relpath of its directory against the source root,
and serialno the serial number handed out by env.new_serialno.

Two Python name errors are modelled faithfully: line 79 builds the
json literal from the name specjson, which is never bound (the dumps
result on line 78 is bound to spec_json), so any invocation with
show-json raises NameError; line 98 stores the local source_literal
into the plot node, and that local is only assigned when show_code
holds (lines 73-74), so any invocation with hide-code raises
UnboundLocalError. On the surviving paths show_json is false, hence
the append of json_literal on line 114 contributes nothing. -/
def run (opts : Options) (content : List String) (block : List PyStmt)
    (rst_source relpath : String) (lineno serialno : Nat) :
    Except PyErr (List Node) :=
  let code := joinLines content
  match exec_then_eval block with
  | .error e => .error e
  | .ok chart =>
    match to_dict chart with
    | .error e => .error e
    | .ok spec =>
      let source_literal : Option LiteralBlock :=
        if opts.hide_code then none else some { text := code, language := "python" }
      if opts.show_json then
        .error .nameError
      else
        let rst_base := replaceDots (basename rst_source)
        let target_id := mkTargetId rst_base serialno
        let div_id := mkDivId rst_base serialno
        let target_node := Node.target [target_id]
        match source_literal with
        | none => .error .unboundLocalError
        | some src =>
          let plot_node : PlotNode :=
            { target_id := target_id, div_id := div_id, source := src,
              relpath := relpath, rst_source := rst_source, rst_lineno := lineno,
              spec := spec, alt := opts.alt }
          .ok ([target_node]
            ++ (if opts.code_below then [Node.plot plot_node] else [])
            ++ (if opts.hide_code then [] else [Node.literal src])
            ++ (if opts.code_below then [] else [Node.plot plot_node]))

/-- One directive invocation as seen by a build: everything run needs
except the serial number, which the build allocates. -/
structure Invocation where
  opts : Options
  content : List String
  block : List PyStmt
  rst_source : String
  relpath : String
  lineno : Nat

/-- env.new_serialno: returns the current counter value and the
incremented counter. -/
def new_serialno (counter : Nat) : Nat × Nat :=
  (counter, counter + 1)

/-- A whole build: process the invocations in document order, threading
the per-build serial counter; each invocation records the serial it was
allocated together with the outcome of run. -/
def processBuild (counter : Nat) : List Invocation → List (Nat × Except PyErr (List Node))
  | [] => []
  | inv :: rest =>
    let sc := new_serialno counter
    (sc.1, run inv.opts inv.content inv.block inv.rst_source inv.relpath inv.lineno sc.1)
      :: processBuild sc.2 rest

/-- A file written by the render dispatcher: directory, file name, and
the structured content serialized into it (json.dumps and the read-back
parse are inverse on this structure, so the content is recorded as the
structure itself). -/
structure ArtifactWrite where
  dir : String
  filename : String
  content : JsonVal

/-- The observable effects of one visitor call: files written, strings
appended to self.body, and whether SkipNode was raised. -/
structure VisitResult where
  writes : List ArtifactWrite
  body : List String
  skip : Bool

/-- os.path.join for the relative second components used here. -/
def pathJoin (a b : String) : String :=
  if a = "" then b else a ++ "/" ++ b

/-- The render of VGL_TEMPLATE (lines 24-34) with the two template
variables substituted. -/
def vglEmbedHtml (div_id filename : String) : String :=
  "\n<div id=\x22" ++ div_id ++ "\x22>\n" ++
  "<script src=\x22https://d3js.org/d3.v3.min.js\x22></script>\n" ++
  "<script src=\x22https://vega.github.io/vega/vega.js\x22></script>\n" ++
  "<script src=\x22https://vega.github.io/vega-lite/vega-lite.js\x22></script>\n" ++
  "<script src=\x22https://vega.github.io/vega-editor/vendor/vega-embed.js\x22 charset=\x22utf-8\x22></script>\n" ++
  "<script>\n" ++
  "  vg.embed(\x22#" ++ div_id ++ "\x22, \x22" ++ filename ++ "\x22, function(error, result) \x7b\x7d);\n" ++
  "</script>\n" ++
  "</div>\n"

/-- html_visit_altair_plot, lines 121-139: serialize the two-field
embed structure, write it to div_id.vl.json under outdir joined with
the node relpath, append the rendered template, raise SkipNode. -/
def html_visit_altair_plot (outdir : String) (node : PlotNode) : VisitResult :=
  let embed_spec := JsonVal.obj [("mode", JsonVal.str "vega-lite"), ("spec", node.spec)]
  let dest_dir := pathJoin outdir node.relpath
  let filename := node.div_id ++ ".vl.json"
  { writes := [{ dir := dest_dir, filename := filename, content := embed_spec }],
    body := [vglEmbedHtml node.div_id filename],
    skip := true }

/-- The sphinx translation function, the identity for the untranslated
build modelled here. -/
def gettext (s : String) : String := s

/-- Worker for the Python percent-formatting operator with one string
argument: the first occurrence of the s conversion is replaced by the
argument. -/
def pyFormatAux (arg : String) : List Char → List Char
  | [] => []
  | '%' :: 's' :: rest => arg.data ++ rest
  | c :: rest => c :: pyFormatAux arg rest

/-- The Python percent-formatting operator with one string argument. -/
def pyFormat (fmt : String) (arg : String) : String :=
  String.mk (pyFormatAux arg fmt.data)

/-- generic_visit_altair_plot, lines 142-147: append the bracketed
placeholder, with the alt text formatted in when present; write no
file; raise SkipNode. -/
def generic_visit_altair_plot (node : PlotNode) : VisitResult :=
  match node.alt with
  | some a => { writes := [], body := [pyFormat (gettext "[ graph: %s ]") a], skip := true }
  | none => { writes := [], body := [gettext "[ graph ]"], skip := true }

/-! Helper lemmas about decimal rendering, identifier strings, the
executor and the directive processor. -/

/-- The character code of a decimal digit. -/
lemma digitChar_toNat {d : Nat} (h : d < 10) : (digitChar d).toNat = 48 + d := by
  interval_cases d <;> rfl

/-- Decimal digit characters satisfy isDigit. -/
lemma digitChar_isDigit {d : Nat} (h : d < 10) : (digitChar d).isDigit = true := by
  interval_cases d <;> rfl

/-- Every character produced by the decimal rendering worker is a
digit. -/
lemma natCharsAux_digits : ∀ (fuel n : Nat), ∀ c ∈ natCharsAux fuel n, c.isDigit = true := by
  intro fuel
  induction fuel with
  | zero => intro n c hc; simp [natCharsAux] at hc
  | succ fuel ih =>
    intro n c hc
    by_cases h : n < 10
    · simp [natCharsAux, h] at hc
      subst hc
      exact digitChar_isDigit h
    · simp [natCharsAux, h] at hc
      rcases hc with hc | hc
      · exact ih _ _ hc
      · subst hc
        exact digitChar_isDigit (Nat.mod_lt _ (by norm_num))

/-- Every character of the decimal rendering of a natural number is a
digit. -/
lemma natChars_digits (n : Nat) : ∀ c ∈ natChars n, c.isDigit = true :=
  natCharsAux_digits (n + 1) n

/-- Reading after appending one digit character. -/
lemma charsToNat_append_digit (xs : List Char) (c : Char) :
    charsToNat (xs ++ [c]) = charsToNat xs * 10 + (c.toNat - 48) := by
  simp [charsToNat, List.foldl_append]

/-- Decimal reading inverts the rendering worker when the fuel is
sufficient. -/
lemma charsToNat_natCharsAux : ∀ (fuel n : Nat), n ≤ fuel →
    charsToNat (natCharsAux (fuel + 1) n) = n := by
  intro fuel
  induction fuel with
  | zero =>
    intro n hn
    interval_cases n
    rfl
  | succ fuel ih =>
    intro n hn
    by_cases h : n < 10
    · simp [natCharsAux, h, charsToNat, digitChar_toNat h]
    · have hrec : n / 10 ≤ fuel := by omega
      have h10 : n % 10 < 10 := Nat.mod_lt _ (by norm_num)
      rw [show natCharsAux (fuel + 1 + 1) n
            = natCharsAux (fuel + 1) (n / 10) ++ [digitChar (n % 10)] by
          simp [natCharsAux, h]]
      rw [charsToNat_append_digit, ih _ hrec, digitChar_toNat h10]
      omega

/-- Decimal rendering is injective. -/
lemma natChars_inj {m n : Nat} (h : natChars m = natChars n) : m = n := by
  have hm := charsToNat_natCharsAux m m le_rfl
  have hn := charsToNat_natCharsAux n n le_rfl
  rw [natChars] at h
  rw [natChars] at h
  rw [← hm, ← hn, h]

/-- A dash followed by a digit run determines the digit run: if a dash
and a digit run are a suffix of a dash followed by another digit run,
the runs coincide, because a longer run would put the dash among the
digits. -/
lemma digit_suffix_aux {d1 d2 : List Char} (hsuf : ('-' :: d1) <:+ ('-' :: d2))
    (h2 : ∀ c ∈ d2, c.isDigit = true) : d1 = d2 := by
  obtain ⟨u, hu⟩ := hsuf
  cases u with
  | nil =>
    simpa using hu
  | cons c u =>
    simp only [List.cons_append] at hu
    obtain ⟨hc, hrest⟩ := List.cons.inj hu
    exfalso
    have hmem : '-' ∈ d2 := by
      rw [← hrest]
      exact List.mem_append_right _ (List.mem_cons_self _ _)
    have := h2 _ hmem
    simp [Char.isDigit] at this

/-- Two decompositions of the same character list into an arbitrary
part, a dash, and a digit run have the same digit run. -/
lemma digit_suffix_eq {l1 l2 d1 d2 : List Char}
    (h : l1 ++ '-' :: d1 = l2 ++ '-' :: d2)
    (h1 : ∀ c ∈ d1, c.isDigit = true) (h2 : ∀ c ∈ d2, c.isDigit = true) :
    d1 = d2 := by
  have s1 : ('-' :: d1) <:+ (l2 ++ '-' :: d2) := ⟨l1, h⟩
  have s2 : ('-' :: d2) <:+ (l2 ++ '-' :: d2) := ⟨l2, rfl⟩
  rcases List.suffix_or_suffix_of_suffix s1 s2 with hs | hs
  · exact digit_suffix_aux hs h2
  · exact (digit_suffix_aux hs h1).symm

/-- String append acts as list append on the underlying character
data. -/
lemma data_append (s t : String) : (s ++ t).data = s.data ++ t.data := rfl

/-- Equal target identifiers force equal serial numbers, for any two
basenames: the serial number is the digit run after the last dash. -/
lemma mkTargetId_inj {b1 b2 : String} {n1 n2 : Nat}
    (h : mkTargetId b1 n1 = mkTargetId b2 n2) : n1 = n2 := by
  have h' := congrArg String.data h
  simp only [mkTargetId, natStr, data_append] at h'
  have h1 : (b1.data ++ ['-', 'a', 'l', 't', 'a', 'i', 'r', '-', 's', 'o', 'u', 'r', 'c', 'e'])
        ++ '-' :: natChars n1
      = (b2.data ++ ['-', 'a', 'l', 't', 'a', 'i', 'r', '-', 's', 'o', 'u', 'r', 'c', 'e'])
        ++ '-' :: natChars n2 := by
    simpa [List.append_assoc] using h'
  exact natChars_inj (digit_suffix_eq h1 (natChars_digits n1) (natChars_digits n2))

/-- Equal div identifiers force equal serial numbers, for any two
basenames. -/
lemma mkDivId_inj {b1 b2 : String} {n1 n2 : Nat}
    (h : mkDivId b1 n1 = mkDivId b2 n2) : n1 = n2 := by
  have h' := congrArg String.data h
  simp only [mkDivId, natStr, data_append] at h'
  have h1 : (b1.data ++ ['-', 'a', 'l', 't', 'a', 'i', 'r', '-', 'p', 'l', 'o', 't'])
        ++ '-' :: natChars n1
      = (b2.data ++ ['-', 'a', 'l', 't', 'a', 'i', 'r', '-', 'p', 'l', 'o', 't'])
        ++ '-' :: natChars n2 := by
    simpa [List.append_assoc] using h'
  exact natChars_inj (digit_suffix_eq h1 (natChars_digits n1) (natChars_digits n2))

/-- The invocation at position i of a build receives serial number
counter + i. -/
lemma processBuild_get? : ∀ (invs : List Invocation) (counter i : Nat), i < invs.length →
    ((processBuild counter invs).get? i).map Prod.fst = some (counter + i) := by
  intro invs
  induction invs with
  | nil => intro counter i h; simp at h
  | cons inv rest ih =>
    intro counter i h
    cases i with
    | zero => simp [processBuild, new_serialno]
    | succ i =>
      simp only [processBuild, new_serialno, List.get?_cons_succ]
      rw [ih _ i (by simpa using h)]
      congr 1
      omega

/-- The executor on a block with final statement s: the value attribute
of s is read first, then the preceding statements run, then the
extracted expression is evaluated. -/
lemma exec_then_eval_concat (rest : List PyStmt) (s : PyStmt) :
    exec_then_eval (rest ++ [s])
      = match stmtValue s with
        | none => .error .attributeError
        | some lastExpr =>
          match execStmts [] rest with
          | .error err => .error err
          | .ok env => evalExpr env lastExpr := by
  rw [exec_then_eval, List.getLast?_concat, List.dropLast_concat]

/-- Expression evaluation only fails with NameError. -/
lemma evalExpr_error {env : Env} {e : PyExpr} {err : PyErr}
    (h : evalExpr env e = .error err) : err = .nameError := by
  cases e with
  | lit v => simp [evalExpr] at h
  | name x =>
    simp only [evalExpr, lookupName] at h
    cases hl : env.lookup x with
    | none => rw [hl] at h; simpa using h.symm
    | some v => rw [hl] at h; simp at h
  | mkChart s => simp [evalExpr] at h

/-- Statement execution only fails with NameError. -/
lemma execStmt_error {env : Env} {s : PyStmt} {err : PyErr}
    (h : execStmt env s = .error err) : err = .nameError := by
  cases s with
  | exprStmt e =>
    simp only [execStmt] at h
    cases he : evalExpr env e with
    | error e2 => rw [he] at h; cases h; exact evalExpr_error he
    | ok v => rw [he] at h; cases h
  | assign x e =>
    simp only [execStmt] at h
    cases he : evalExpr env e with
    | error e2 => rw [he] at h; cases h; exact evalExpr_error he
    | ok v => rw [he] at h; cases h
  | passStmt => simp [execStmt] at h
  | importStmt m => simp [execStmt] at h

/-- Statement list execution only fails with NameError. -/
lemma execStmts_error : ∀ {stmts : List PyStmt} {env : Env} {err : PyErr},
    execStmts env stmts = .error err → err = .nameError := by
  intro stmts
  induction stmts with
  | nil => intro env err h; simp [execStmts] at h
  | cons s rest ih =>
    intro env err h
    simp only [execStmts] at h
    cases he : execStmt env s with
    | error e2 => rw [he] at h; cases h; exact execStmt_error he
    | ok env2 => rw [he] at h; exact ih h

/-- The executor fails only with IndexError, AttributeError or
NameError: a block that already parsed never produces a parse
failure. -/
lemma exec_then_eval_error {block : List PyStmt} {err : PyErr}
    (h : exec_then_eval block = .error err) :
    err = .indexError ∨ err = .attributeError ∨ err = .nameError := by
  unfold exec_then_eval at h
  split at h
  · cases h
    exact Or.inl rfl
  · split at h
    · cases h
      exact Or.inr (Or.inl rfl)
    · split at h
      · rename_i heq
        cases h
        exact Or.inr (Or.inr (execStmts_error heq))
      · exact Or.inr (Or.inr (evalExpr_error h))

/-- Inversion of a successful run: the show-json and hide-code flags
are necessarily absent, the executor and to_dict succeeded, and the
emitted sequence is the anchor, the plot node before or after the
single source listing according to code-below. -/
lemma run_ok_inv {opts : Options} {content : List String} {block : List PyStmt}
    {rst_source relpath : String} {lineno serialno : Nat} {ns : List Node}
    (h : run opts content block rst_source relpath lineno serialno = .ok ns) :
    opts.show_json = false ∧ opts.hide_code = false ∧
    ∃ chart spec, exec_then_eval block = .ok chart ∧ to_dict chart = .ok spec ∧
      ns = [Node.target [mkTargetId (replaceDots (basename rst_source)) serialno]]
        ++ (if opts.code_below then
              [Node.plot { target_id := mkTargetId (replaceDots (basename rst_source)) serialno,
                           div_id := mkDivId (replaceDots (basename rst_source)) serialno,
                           source := ⟨joinLines content, "python"⟩,
                           relpath := relpath, rst_source := rst_source, rst_lineno := lineno,
                           spec := spec, alt := opts.alt }] else [])
        ++ [Node.literal ⟨joinLines content, "python"⟩]
        ++ (if opts.code_below then [] else
              [Node.plot { target_id := mkTargetId (replaceDots (basename rst_source)) serialno,
                           div_id := mkDivId (replaceDots (basename rst_source)) serialno,
                           source := ⟨joinLines content, "python"⟩,
                           relpath := relpath, rst_source := rst_source, rst_lineno := lineno,
                           spec := spec, alt := opts.alt }]) := by
  unfold run at h
  split at h
  · cases h
  · rename_i chart hchart
    split at h
    · cases h
    · rename_i spec hspec
      by_cases hsj : opts.show_json
      · rw [if_pos hsj] at h
        cases h
      · rw [if_neg hsj] at h
        by_cases hhc : opts.hide_code
        · rw [if_pos hhc] at h
          cases h
        · rw [if_neg hhc] at h
          refine ⟨by simpa using hsj, by simpa using hhc, chart, spec, hchart, hspec, ?_⟩
          cases h
          simp [hhc]

/-! Claim theorems. -/

/-- C1, counterexample to the claim as stated: a successful invocation
with code-below absent emits [anchor, source listing, plot] — the plot
node comes after the source listing, not immediately after the anchor
as the claim asserts for the absent case. The code places the plot
right after the anchor exactly when code-below is present (lines
109-116), the opposite of the claimed correspondence. -/
theorem claim_C1_counterexample :
    (run ⟨false, false, false, none⟩ ["make_chart()"]
        [PyStmt.exprStmt (PyExpr.mkChart JsonVal.null)] "doc.rst" "." 1 0).map
        (fun ns => ns.map Node.kind)
      = .ok [NodeKind.target, NodeKind.literal, NodeKind.plot] := rfl

/-- C1, amended: for every successful directive invocation the
anchor/target node is first, and the plot node comes immediately after
the anchor when code-below is present, and after the source listing
when code-below is absent. On successful invocations the source
listing is always present and no json listing ever appears, because
hide-code and show-json invocations fail before emitting (lines 79 and
98). -/
theorem claim_C1_amended (opts : Options) (content : List String) (block : List PyStmt)
    (rst_source relpath : String) (lineno serialno : Nat) (ns : List Node)
    (h : run opts content block rst_source relpath lineno serialno = .ok ns) :
    ns.map Node.kind
      = if opts.code_below then [NodeKind.target, NodeKind.plot, NodeKind.literal]
        else [NodeKind.target, NodeKind.literal, NodeKind.plot] := by
  obtain ⟨hsj, hhc, chart, spec, hchart, hspec, hns⟩ := run_ok_inv h
  subst hns
  cases hcb : opts.code_below <;> simp [hcb, Node.kind]

/-- C1, witness: the amended theorem applied to a concrete successful
invocation with code-below present, whose output is anchor, plot,
source listing. -/
theorem claim_C1_witness :
    [Node.target ["doc-rst-altair-source-0"],
     Node.plot { target_id := "doc-rst-altair-source-0", div_id := "doc-rst-altair-plot-0",
                 source := ⟨"make_chart()", "python"⟩, relpath := ".", rst_source := "doc.rst",
                 rst_lineno := 1, spec := JsonVal.null, alt := none },
     Node.literal ⟨"make_chart()", "python"⟩].map Node.kind
      = [NodeKind.target, NodeKind.plot, NodeKind.literal] := by
  simpa using claim_C1_amended ⟨false, false, true, none⟩ ["make_chart()"]
    [PyStmt.exprStmt (PyExpr.mkChart JsonVal.null)] "doc.rst" "." 1 0
    [Node.target ["doc-rst-altair-source-0"],
     Node.plot { target_id := "doc-rst-altair-source-0", div_id := "doc-rst-altair-plot-0",
                 source := ⟨"make_chart()", "python"⟩, relpath := ".", rst_source := "doc.rst",
                 rst_lineno := 1, spec := JsonVal.null, alt := none },
     Node.literal ⟨"make_chart()", "python"⟩] rfl

/-- C2, counterexample to the claim as stated: a content block whose
final statement is an assignment does not fail with a parse failure.
The executor reads the value field of the ast.Assign node, which is the
right-hand side, and evaluates it; when the right-hand side is a chart
call the whole directive succeeds and emits an intermediate node. -/
theorem claim_C2_counterexample :
    exec_then_eval [PyStmt.assign "x" (PyExpr.lit (PyVal.int 5))] = .ok (PyVal.int 5)
    ∧ run ⟨false, false, false, none⟩ ["x = make_chart()"]
        [PyStmt.assign "x" (PyExpr.mkChart (JsonVal.obj [("mark", JsonVal.str "bar")]))]
        "doc.rst" "." 1 0
      = .ok [Node.target ["doc-rst-altair-source-0"],
             Node.literal ⟨"x = make_chart()", "python"⟩,
             Node.plot { target_id := "doc-rst-altair-source-0",
                         div_id := "doc-rst-altair-plot-0",
                         source := ⟨"x = make_chart()", "python"⟩,
                         relpath := ".", rst_source := "doc.rst", rst_lineno := 1,
                         spec := JsonVal.obj [("mark", JsonVal.str "bar")], alt := none }] :=
  ⟨rfl, rfl⟩

/-- C2, amended: a block ending in an assignment is executed with the
right-hand side of the assignment as the final expression, with no
failure specific to the statement kind; a block ending in a statement
without a value field, such as pass, fails with AttributeError; and in
no case does the executor produce a parse failure once the block has
parsed. -/
theorem claim_C2_amended (rest : List PyStmt) (x : String) (e : PyExpr) :
    exec_then_eval (rest ++ [PyStmt.assign x e])
      = (match execStmts [] rest with
         | .error err => .error err
         | .ok env => evalExpr env e)
    ∧ exec_then_eval (rest ++ [PyStmt.passStmt]) = .error .attributeError
    ∧ ∀ (block : List PyStmt) (err : PyErr),
        exec_then_eval block = .error err → err ≠ .parseError := by
  refine ⟨?_, ?_, ?_⟩
  · rw [exec_then_eval_concat]
    rfl
  · rw [exec_then_eval_concat]
    rfl
  · intro block err h
    rcases exec_then_eval_error h with h1 | h1 | h1 <;> subst h1 <;> intro hcontra <;> cases hcontra

/-- C2, witness: the amended theorem applied to the one-statement block
consisting of an assignment of the literal 5, and to the block
consisting of a single pass statement. -/
theorem claim_C2_witness :
    exec_then_eval ([] ++ [PyStmt.assign "x" (PyExpr.lit (PyVal.int 5))])
      = (match execStmts [] [] with
         | .error err => .error err
         | .ok env => evalExpr env (PyExpr.lit (PyVal.int 5)))
    ∧ exec_then_eval ([] ++ [PyStmt.passStmt]) = .error .attributeError :=
  ⟨(claim_C2_amended [] "x" (PyExpr.lit (PyVal.int 5))).1,
   (claim_C2_amended [] "x" (PyExpr.lit (PyVal.int 5))).2.1⟩

/-- C3, evaluation at the failing input: an invocation with hide-code
set fails with UnboundLocalError instead of returning a sequence
without the source listing. Line 98 stores the local source_literal
into the plot node unconditionally, but lines 73-74 only assign that
local when the code is shown, so the hide-code path reads an unbound
local. The claim describes the documented intent of the option; the
code is the slip. -/
theorem claim_C3_code_eval :
    run ⟨false, true, false, none⟩ ["make_chart()"]
      [PyStmt.exprStmt (PyExpr.mkChart (JsonVal.obj [("mark", JsonVal.str "bar")]))]
      "doc.rst" "." 1 0 = .error .unboundLocalError := rfl

/-- C4, evaluation at the failing input: an invocation with show-json
set fails with NameError instead of emitting a json listing. Line 78
binds the serialized specification to the name spec_json but line 79
reads the never-bound name specjson. The claim describes the intent;
the code has the naming defect acknowledged in the design notes of the
specification. -/
theorem claim_C4_code_eval :
    run ⟨true, false, false, none⟩ ["make_chart()"]
      [PyStmt.exprStmt (PyExpr.mkChart (JsonVal.obj [("mark", JsonVal.str "bar")]))]
      "doc.rst" "." 1 0 = .error .nameError := rfl

/-- C5: when the preceding statements of a block execute to a
namespace env and the final expression evaluates in env to a value
whose to_dict call yields specification s, the executor returns that
value, and a successful run of the directive on that block emits
exactly one plot node whose attached specification is s. -/
theorem claim_C5 (rest : List PyStmt) (e : PyExpr) (env : Env) (v : PyVal) (s : JsonVal)
    (opts : Options) (content : List String) (rst_source relpath : String)
    (lineno serialno : Nat)
    (hhc : opts.hide_code = false) (hsj : opts.show_json = false)
    (henv : execStmts [] rest = .ok env)
    (hv : evalExpr env e = .ok v)
    (hs : to_dict v = .ok s) :
    exec_then_eval (rest ++ [PyStmt.exprStmt e]) = .ok v
    ∧ (run opts content (rest ++ [PyStmt.exprStmt e]) rst_source relpath lineno serialno).map
        (fun ns => (plotNodes ns).map PlotNode.spec) = .ok [s] := by
  have hex : exec_then_eval (rest ++ [PyStmt.exprStmt e]) = .ok v := by
    rw [exec_then_eval_concat, henv]
    exact hv
  refine ⟨hex, ?_⟩
  cases hcb : opts.code_below <;> simp [run, hex, hs, hsj, hhc, hcb, plotNodes] <;> rfl

/-- C5, witness: a two-line block binding a chart to c and ending in
the expression c; the node attached to the run output carries the
specification of that chart. -/
theorem claim_C5_witness :
    exec_then_eval ([PyStmt.assign "c" (PyExpr.mkChart (JsonVal.obj [("mark", JsonVal.str "bar")]))]
        ++ [PyStmt.exprStmt (PyExpr.name "c")])
      = .ok (PyVal.chart (JsonVal.obj [("mark", JsonVal.str "bar")]))
    ∧ (run ⟨false, false, false, none⟩ ["c = make_chart()", "c"]
        ([PyStmt.assign "c" (PyExpr.mkChart (JsonVal.obj [("mark", JsonVal.str "bar")]))]
          ++ [PyStmt.exprStmt (PyExpr.name "c")])
        "doc.rst" "." 3 0).map (fun ns => (plotNodes ns).map PlotNode.spec)
      = .ok [JsonVal.obj [("mark", JsonVal.str "bar")]] :=
  claim_C5 [PyStmt.assign "c" (PyExpr.mkChart (JsonVal.obj [("mark", JsonVal.str "bar")]))]
    (PyExpr.name "c") [("c", PyVal.chart (JsonVal.obj [("mark", JsonVal.str "bar")]))]
    (PyVal.chart (JsonVal.obj [("mark", JsonVal.str "bar")]))
    (JsonVal.obj [("mark", JsonVal.str "bar")])
    ⟨false, false, false, none⟩ ["c = make_chart()", "c"] "doc.rst" "." 3 0
    rfl rfl rfl rfl rfl

/-- C6: for every intermediate node, interactive rendering writes
exactly one artifact file, named from the div identifier with the
vl.json suffix, in the output root joined with the relative path
stored on the node, and the structured content written is exactly the
two-field structure with the fixed vega-lite mode tag and the node
specification. -/
theorem claim_C6 (outdir : String) (p : PlotNode) :
    (html_visit_altair_plot outdir p).writes
      = [{ dir := pathJoin outdir p.relpath, filename := p.div_id ++ ".vl.json",
           content := JsonVal.obj [("mode", JsonVal.str "vega-lite"), ("spec", p.spec)] }] := rfl

/-- C7: in one build, the invocations at positions i < j receive the
serial numbers counter + i and counter + j, which are increasing and
distinct, and the target and div identifiers derived from them differ
for any two document basenames, because the serial number is
recoverable from the identifier as the digit run after the last
dash. -/
theorem claim_C7 (counter : Nat) (invs : List Invocation) (i j : Nat) (b1 b2 : String)
    (hij : i < j) (hj : j < invs.length) :
    ((processBuild counter invs).get? i).map Prod.fst = some (counter + i)
    ∧ ((processBuild counter invs).get? j).map Prod.fst = some (counter + j)
    ∧ counter + i < counter + j
    ∧ counter + i ≠ counter + j
    ∧ mkTargetId b1 (counter + i) ≠ mkTargetId b2 (counter + j)
    ∧ mkDivId b1 (counter + i) ≠ mkDivId b2 (counter + j) := by
  have hi : i < invs.length := lt_trans hij hj
  refine ⟨processBuild_get? invs counter i hi, processBuild_get? invs counter j hj,
    by omega, by omega, ?_, ?_⟩
  · intro hcontra
    exact absurd (mkTargetId_inj hcontra) (by omega)
  · intro hcontra
    exact absurd (mkDivId_inj hcontra) (by omega)

/-- C7, witness: a two-invocation build starting at counter 0; the two
serials are 0 and 1 and the derived identifiers differ even across
different document basenames. -/
theorem claim_C7_witness :
    ((processBuild 0 [⟨⟨false, false, false, none⟩, ["make_chart()"],
        [PyStmt.exprStmt (PyExpr.mkChart JsonVal.null)], "doc.rst", ".", 1⟩,
      ⟨⟨false, false, false, none⟩, ["make_chart()"],
        [PyStmt.exprStmt (PyExpr.mkChart JsonVal.null)], "other.rst", ".", 4⟩]).get? 0).map Prod.fst
      = some (0 + 0)
    ∧ ((processBuild 0 [⟨⟨false, false, false, none⟩, ["make_chart()"],
        [PyStmt.exprStmt (PyExpr.mkChart JsonVal.null)], "doc.rst", ".", 1⟩,
      ⟨⟨false, false, false, none⟩, ["make_chart()"],
        [PyStmt.exprStmt (PyExpr.mkChart JsonVal.null)], "other.rst", ".", 4⟩]).get? 1).map Prod.fst
      = some (0 + 1)
    ∧ 0 + 0 < 0 + 1
    ∧ 0 + 0 ≠ 0 + 1
    ∧ mkTargetId "doc-rst" (0 + 0) ≠ mkTargetId "other-rst" (0 + 1)
    ∧ mkDivId "doc-rst" (0 + 0) ≠ mkDivId "other-rst" (0 + 1) :=
  claim_C7 0 [⟨⟨false, false, false, none⟩, ["make_chart()"],
        [PyStmt.exprStmt (PyExpr.mkChart JsonVal.null)], "doc.rst", ".", 1⟩,
      ⟨⟨false, false, false, none⟩, ["make_chart()"],
        [PyStmt.exprStmt (PyExpr.mkChart JsonVal.null)], "other.rst", ".", 4⟩]
    0 1 "doc-rst" "other-rst" (by decide) (by decide)

/-- C8: static rendering of a node with alt text A appends exactly the
bracketed graph marker containing A, and of a node without alt text
exactly the plain bracketed graph marker, and writes no artifact
file. -/
theorem claim_C8 (p : PlotNode) :
    (generic_visit_altair_plot p).body
      = [match p.alt with
         | some a => "[ graph: " ++ a ++ " ]"
         | none => "[ graph ]"]
    ∧ (generic_visit_altair_plot p).writes = [] := by
  obtain ⟨tid, did, src, rp, rs, ln, sp, alt⟩ := p
  cases alt with
  | none => exact ⟨rfl, rfl⟩
  | some a => exact ⟨rfl, rfl⟩

/-- C9: every successful invocation emits the anchor first, with the
target identifier equal to the document basename with dots replaced by
dashes followed by the altair-source separator and the decimal serial
number, and exactly one plot node whose target and div identifiers are
that same transformed basename with the altair-source and altair-plot
separators and the same serial number. -/
theorem claim_C9 (opts : Options) (content : List String) (block : List PyStmt)
    (rst_source relpath : String) (lineno serialno : Nat) (ns : List Node)
    (h : run opts content block rst_source relpath lineno serialno = .ok ns) :
    ns.head? = some (Node.target
        [replaceDots (basename rst_source) ++ "-altair-source-" ++ natStr serialno])
    ∧ (plotNodes ns).map (fun p => (p.target_id, p.div_id))
      = [(replaceDots (basename rst_source) ++ "-altair-source-" ++ natStr serialno,
          replaceDots (basename rst_source) ++ "-altair-plot-" ++ natStr serialno)] := by
  obtain ⟨hsj, hhc, chart, spec, hchart, hspec, hns⟩ := run_ok_inv h
  subst hns
  cases hcb : opts.code_below <;> simp [hcb, plotNodes, mkTargetId, mkDivId]

/-- C9, witness: a concrete invocation processing docs/tutorial.rst at
serial 5; the identifiers are tutorial-rst-altair-source-5 and
tutorial-rst-altair-plot-5. -/
theorem claim_C9_witness :
    [Node.target ["tutorial-rst-altair-source-5"],
     Node.literal ⟨"make_chart()", "python"⟩,
     Node.plot { target_id := "tutorial-rst-altair-source-5",
                 div_id := "tutorial-rst-altair-plot-5",
                 source := ⟨"make_chart()", "python"⟩, relpath := ".",
                 rst_source := "docs/tutorial.rst", rst_lineno := 1,
                 spec := JsonVal.obj [], alt := none }].head?
      = some (Node.target
          [replaceDots (basename "docs/tutorial.rst") ++ "-altair-source-" ++ natStr 5])
    ∧ (plotNodes [Node.target ["tutorial-rst-altair-source-5"],
        Node.literal ⟨"make_chart()", "python"⟩,
        Node.plot { target_id := "tutorial-rst-altair-source-5",
                    div_id := "tutorial-rst-altair-plot-5",
                    source := ⟨"make_chart()", "python"⟩, relpath := ".",
                    rst_source := "docs/tutorial.rst", rst_lineno := 1,
                    spec := JsonVal.obj [], alt := none }]).map (fun p => (p.target_id, p.div_id))
      = [(replaceDots (basename "docs/tutorial.rst") ++ "-altair-source-" ++ natStr 5,
          replaceDots (basename "docs/tutorial.rst") ++ "-altair-plot-" ++ natStr 5)] :=
  claim_C9 ⟨false, false, false, none⟩ ["make_chart()"]
    [PyStmt.exprStmt (PyExpr.mkChart (JsonVal.obj []))] "docs/tutorial.rst" "." 1 5
    [Node.target ["tutorial-rst-altair-source-5"],
     Node.literal ⟨"make_chart()", "python"⟩,
     Node.plot { target_id := "tutorial-rst-altair-source-5",
                 div_id := "tutorial-rst-altair-plot-5",
                 source := ⟨"make_chart()", "python"⟩, relpath := ".",
                 rst_source := "docs/tutorial.rst", rst_lineno := 1,
                 spec := JsonVal.obj [], alt := none }] rfl

/-- C10: the empty content block makes the executor fail with
IndexError, the failure of the pop call on the empty statement list,
and the directive invocation on an empty block therefore fails and
emits no node, for any options and metadata. -/
theorem claim_C10 :
    exec_then_eval ([] : List PyStmt) = .error .indexError
    ∧ ∀ (opts : Options) (content : List String) (rst_source relpath : String)
        (lineno serialno : Nat),
        run opts content [] rst_source relpath lineno serialno = .error .indexError :=
  ⟨rfl, fun _ _ _ _ _ _ => rfl⟩

end Altairplot
